import Mathlib

/-!
Verification of the `v.out.geojson` GRASS addon script.

The script (`v.out.geojson.py`) is an orchestration program: it sequences
calls to external GRASS commands (`g.proj`, `v.proj`, `v.out.ogr`) inside
a guarded lifecycle with registered cleanup.  We embed it shallowly as a
pure function from the command-line options and a `World` (the observable
behaviour of the external toolkit and of the process environment at start)
to a trace of effects, the final values of the script globals, and the
outcome (success, or the Python-level error that aborted the run).

Python integers rendered with `str` / `%s` / `%d` are modelled by `pyStr`,
`str.split` with a one-character separator by `pySplit`, and `str.split`
with a multi-character separator by `pySplitOn`.  The `epsg` option is
declared `type: integer` in the option block, so the value the script sees
has already been validated by the GRASS option framework; we therefore
model it directly as a `Nat` (and `int(options["epsg"])` is the identity).
-/

namespace VOutGeojson

/-- The identity of the workspace that is active when the script starts,
as reported by `grass.gisenv()`. -/
structure GrassEnv where
  locationName : String
  mapset : String
  gisdbase : String
deriving DecidableEq, Repr

/-- The output of `g.proj -g` in the temporary location: either the parsed
dictionary has an `epsg` key with the given value, or only an `srid` key. -/
inductive ProjOut where
  | epsgKey (v : String)
  | sridKey (v : String)
deriving DecidableEq, Repr

/-- Observable behaviour of everything outside the script: the starting
environment, the values produced by `grass.tempfile()` / `grass.tempname(8)`
/ `os.getpid()`, and the responses of the external commands it runs. -/
structure World where
  env : GrassEnv
  /-- value of `os.environ["GISRC"]` when the script starts -/
  gisrc0 : String
  pid : Nat
  /-- path returned by `grass.tempfile()` -/
  tempfilePath : String
  /-- name returned by `grass.tempname(8)` -/
  tempname8 : String
  /-- whether the `g.proj -g` output of the source location has an `epsg` key -/
  srcProjHasEpsg : Bool
  /-- whether the CRS registry of `g.proj -c` can resolve the requested EPSG code -/
  epsgResolvable : Bool
  /-- output of `g.proj -g` inside the temporary location -/
  tmpProj : ProjOut
  vProjOk : Bool
  vProjErr : String
  vOutOgrOk : Bool
  vOutOgrErr : String
  /-- the default print form `str(gj)` of the GeoJSON document parsed by
  `geojson.load` from the produced file -/
  gjPrinted : String
deriving DecidableEq, Repr

/-- The script globals (`rm_file`, `TMPLOC`, `SRCGISRC`, `TGTGISRC`,
`GISDBASE`), all initialised to empty / `None`. -/
structure Globals where
  rm_file : List String
  TMPLOC : Option String
  SRCGISRC : Option String
  TGTGISRC : Option String
  GISDBASE : Option String
deriving DecidableEq, Repr

/-- How a run terminates abnormally:
`fatal` is a `grass.fatal` call (message printed, `sys.exit`),
`cmdError` is an uncaught `CalledModuleError` raised by `grass.run_command`,
`pyExc` is any other uncaught Python exception. -/
inductive Err where
  | fatal (msg : String)
  | cmdError (cmd : String) (msg : String)
  | pyExc (msg : String)
deriving DecidableEq, Repr

/-- Observable effects of a run.  `message` is `grass.message` (diagnostic
stream); `verbose` is `grass.verbose` (suppressed at default verbosity);
`toolkitError` is text an external command wrote to the diagnostic stream
while failing; `fatalMsg` is the message printed by `grass.fatal`;
`printStdout` is Python `print` output on standard output. -/
inductive Effect where
  | message (s : String)
  | verbose (s : String)
  | setEnvVar (key value : String)
  | recordWorkspace (loc mapset gisdbase gisrc : String)
  | writeFile (path content : String)
  | runCmd (cmd : String) (args : List (String × String))
  | toolkitError (s : String)
  | fatalMsg (s : String)
  | printStdout (s : String)
  | removeFile (path : String)
  | rmTree (path : String)
deriving DecidableEq, Repr

/-- Parsed command-line options (`input`, `output`, `epsg`). -/
structure Options where
  input : String
  output : String
  epsg : Nat
deriving DecidableEq, Repr

/-- Character of a decimal digit, `chr(48 + d)`. -/
def digitChar (d : Nat) : Char := Char.ofNat (48 + d)

/-- Fuel-driven decimal rendering: most significant digit first. -/
def pyStrCore : Nat → Nat → List Char
  | 0, _ => []
  | fuel + 1, n =>
    if n < 10 then [digitChar n]
    else pyStrCore fuel (n / 10) ++ [digitChar (n % 10)]

/-- Model of Python `str` on a non-negative integer. -/
def pyStr (n : Nat) : String := ⟨pyStrCore (n + 1) n⟩

/-- Model of Python `str` applied to an optional string global
(`str(None)` is `"None"`). -/
def pyStrOpt : Option String → String
  | some s => s
  | none => "None"

/-- Model of Python `str.split` with a one-character separator:
splits at every occurrence, keeping empty pieces. -/
def splitChars (sep : Char) : List Char → List (List Char)
  | [] => [[]]
  | c :: cs =>
    if c = sep then [] :: splitChars sep cs
    else
      match splitChars sep cs with
      | [] => [[c]]
      | h :: t => (c :: h) :: t

/-- Python `s.split(sep)` for a one-character `sep`. -/
def pySplit (s : String) (sep : Char) : List String :=
  (splitChars sep s.data).map (⟨·⟩)

/-- Fuel-driven core of Python `str.split` with a multi-character separator. -/
def splitOnCore (sep : List Char) : Nat → List Char → List (List Char)
  | 0, l => [l]
  | fuel + 1, l =>
    match l with
    | [] => [[]]
    | c :: cs =>
      if sep.isPrefixOf (c :: cs) then
        [] :: splitOnCore sep fuel ((c :: cs).drop sep.length)
      else
        match splitOnCore sep fuel cs with
        | [] => [[c]]
        | h :: t => (c :: h) :: t

/-- Python `s.split(sep)` for a non-empty string separator. -/
def pySplitOn (s sep : String) : List String :=
  (splitOnCore sep.data (s.data.length + 1) s.data).map (⟨·⟩)

/-- Simplified `os.path.join` for the paths the script joins (a GRASS
database root, reported without a trailing separator, and a location name). -/
def pathJoin (a b : String) : String := a ++ "/" ++ b

/-- Name of the temporary location, `"temp_import_location_" + str(os.getpid())`. -/
def tmplocName (pid : Nat) : String := "temp_import_location_" ++ pyStr pid

/-- Modelled from the spec: the CRS registry rejection message that the
external `g.proj` command (not part of this repository) writes to the
diagnostic stream when it cannot resolve an EPSG code.  The spec fixes the
wording as `EPSG PCS/GCS code <EPSG> not found in EPSG support files.` -/
def epsgRejectionMsg (epsg : Nat) : String :=
  "EPSG PCS/GCS code " ++ pyStr epsg ++ " not found in EPSG support files."

/-- The value `new_epsg` computed after switching into the temporary
location: `proj["epsg"]` when present, else `proj["srid"].split("EPSG:")[1]`
(where a missing index `1` is a Python `IndexError`). -/
def newEpsgOf (w : World) : Option String :=
  match w.tmpProj with
  | .epsgKey v => some v
  | .sridKey v => (pySplitOn v "EPSG:").get? 1

/-- The `cleanup` routine registered with `atexit`: removes every existing
file in `rm_file`, restores `GISRC` when `TGTGISRC` is set, removes the
temporary location storage when `TMPLOC` is set, and removes the temporary
descriptor file when `SRCGISRC` is set. -/
def cleanup (isfile : String → Bool) (g : Globals) : List Effect :=
  [Effect.message "Cleaning up..."] ++
  (g.rm_file.filterMap fun f =>
    if isfile f then some (Effect.removeFile f) else none) ++
  (match g.TGTGISRC with
   | some v => [Effect.setEnvVar "GISRC" v]
   | none => []) ++
  (match g.TMPLOC with
   | some t => [Effect.rmTree (pathJoin (pyStrOpt g.GISDBASE) t)]
   | none => []) ++
  (match g.SRCGISRC with
   | some s => [Effect.removeFile s]
   | none => [])

/-- The `createTMPlocation` function: writes the temporary GISRC descriptor,
creates the temporary location via `g.proj -c`, switches `GISRC` to it and
verifies that the location reports the requested EPSG code. -/
def createTMPlocation (w : World) (g : Globals) (epsg : Nat) :
    List Effect × Globals × Option Err :=
  let srcgisrc := w.tempfilePath
  let tmploc := tmplocName w.pid
  let g1 : Globals := { g with SRCGISRC := some srcgisrc, TMPLOC := some tmploc }
  let content :=
    "MAPSET: PERMANENT\n" ++
    "GISDBASE: " ++ pyStrOpt g.GISDBASE ++ "\n" ++
    "LOCATION_NAME: " ++ tmploc ++ "\n" ++
    "GUI: text\n"
  let epsgArg : List (String × String) :=
    if w.srcProjHasEpsg then [("epsg", pyStr epsg)]
    else [("srid", "EPSG:" ++ pyStr epsg)]
  let pre : List Effect :=
    [Effect.writeFile srcgisrc content,
     Effect.runCmd "g.proj" [("flags", "g")],
     Effect.verbose ("Creating temporary location with EPSG:" ++ pyStr epsg ++ "...")]
  let createCmd :=
    Effect.runCmd "g.proj" ([("flags", "c"), ("location", tmploc), ("quiet", "True")] ++ epsgArg)
  if w.epsgResolvable then
    let afterCreate := pre ++
      [createCmd,
       Effect.setEnvVar "GISRC" srcgisrc,
       Effect.runCmd "g.proj" [("flags", "g")]]
    match newEpsgOf w with
    | none =>
      (afterCreate, g1, some (Err.pyExc "IndexError: list index out of range"))
    | some newEpsg =>
      if newEpsg ≠ pyStr epsg then
        (afterCreate ++ [Effect.fatalMsg "Creation of temporary location failed!"], g1,
         some (Err.fatal "Creation of temporary location failed!"))
      else
        (afterCreate, g1, none)
  else
    (pre ++ [createCmd, Effect.toolkitError (epsgRejectionMsg epsg)], g1,
     some (Err.cmdError "g.proj" (epsgRejectionMsg epsg)))

/-- The `get_actual_location` function: reads the current workspace identity
and records it in the globals `TGTGISRC` and `GISDBASE`, returning the
current location and mapset. -/
def get_actual_location (w : World) (g : Globals) :
    List Effect × Globals × String × String :=
  ([Effect.recordWorkspace w.env.locationName w.env.mapset w.env.gisdbase w.gisrc0],
   { g with GISDBASE := some w.env.gisdbase, TGTGISRC := some w.gisrc0 },
   w.env.locationName, w.env.mapset)

/-- The `name@mapset` split in `main`: `[name, vectmapset] = vect.split("@")`
when `"@" in vect`, else `(vect, tgtmapset)`.  A split that does not yield
exactly two pieces is a Python `ValueError` from the unpacking. -/
def parseVect (vect tgtmapset : String) : Except String (String × String) :=
  if '@' ∈ vect.data then
    match pySplit vect '@' with
    | [name, vectmapset] => .ok (name, vectmapset)
    | _ => .error "ValueError: too many values to unpack (expected 2)"
  else
    .ok (vect, tgtmapset)

/-- The `main` function of the script. -/
def mainRun (w : World) (opts : Options) : List Effect × Globals × Option Err :=
  let g0 : Globals :=
    { rm_file := [], TMPLOC := none, SRCGISRC := none, TGTGISRC := none, GISDBASE := none }
  let vect := opts.input
  let envEff : List Effect :=
    [Effect.setEnvVar "GRASS_COMPRESS_NULLS" "1",
     Effect.setEnvVar "GRASS_COMPRESSOR" "LZ4",
     Effect.setEnvVar "GRASS_MESSAGE_FORMAT" "plain"]
  let msgEff : List Effect := [Effect.message "Export input as GeoJSON..."]
  let (recEff, g1, tgtloc, tgtmapset) := get_actual_location w g0
  let (locEff, g2, locErr) := createTMPlocation w g1 opts.epsg
  let pre := envEff ++ msgEff ++ recEff ++ locEff
  match locErr with
  | some e => (pre, g2, some e)
  | none =>
    match parseVect vect tgtmapset with
    | .error m => (pre, g2, some (Err.pyExc m))
    | .ok (name, vectmapset) =>
      let vProjCmd := Effect.runCmd "v.proj"
        [("location", tgtloc), ("mapset", vectmapset), ("input", name),
         ("output", name), ("quiet", "True")]
      if w.vProjOk then
        let (geojsonfile, g3) :=
          if opts.output = "-" then
            (w.tempname8 ++ ".geojson",
             { g2 with rm_file := g2.rm_file ++ [w.tempname8 ++ ".geojson"] })
          else (opts.output, g2)
        let exportCmd := Effect.runCmd "v.out.ogr"
          [("input", name), ("output", geojsonfile), ("format", "GeoJSON")]
        if w.vOutOgrOk then
          let outEff : List Effect :=
            if opts.output = "-" then
              [Effect.message ("GeoJSON of <" ++ opts.input ++ "> in EPSG:<" ++
                 pyStr opts.epsg ++ "> is:"),
               Effect.printStdout (w.gjPrinted ++ "\n")]
            else
              [Effect.message ("GeoJSON of <" ++ opts.input ++ "> in EPSG:<" ++
                 pyStr opts.epsg ++ "> is saved in <" ++ opts.output ++ ">")]
          (pre ++ [vProjCmd, exportCmd] ++ outEff ++
             [Effect.setEnvVar "GISRC" (pyStrOpt g2.TGTGISRC)], g3, none)
        else
          (pre ++ [vProjCmd, exportCmd, Effect.toolkitError w.vOutOgrErr], g3,
           some (Err.cmdError "v.out.ogr" w.vOutOgrErr))
      else
        (pre ++ [vProjCmd, Effect.toolkitError w.vProjErr], g2,
         some (Err.cmdError "v.proj" w.vProjErr))

/-- The whole invocation as run by the `__main__` block: `atexit` registers
`cleanup` once, `main` runs, and at process exit (normal return, `sys.exit`
from `grass.fatal`, or unwinding of an uncaught exception) the registered
`cleanup` executes on the final globals. -/
def program (w : World) (opts : Options) (isfile : String → Bool) :
    List Effect × Option Err :=
  let (t, g, e) := mainRun w opts
  (t ++ cleanup isfile g, e)

/-- Process exit code: `sys.exit(main())` on success, nonzero otherwise. -/
def exitCode : Option Err → Nat
  | none => 0
  | some _ => 1

/-- Strings written to standard output. -/
def stdoutOf (t : List Effect) : List String :=
  t.filterMap fun e =>
    match e with
    | .printStdout s => some s
    | _ => none

/-- Strings written to the diagnostic stream at default verbosity
(`grass.message`, `grass.fatal`, and text from failing external commands;
`grass.verbose` output is suppressed at default verbosity). -/
def diagOf (t : List Effect) : List String :=
  t.filterMap fun e =>
    match e with
    | .message s => some s
    | .toolkitError s => some s
    | .fatalMsg s => some s
    | _ => none

def gisrcContent (w : World) : String :=
  "MAPSET: PERMANENT\n" ++ "GISDBASE: " ++ w.env.gisdbase ++ "\n" ++
  "LOCATION_NAME: " ++ tmplocName w.pid ++ "\n" ++ "GUI: text\n"

def epsgArgOf (w : World) (epsg : Nat) : List (String × String) :=
  if w.srcProjHasEpsg then [("epsg", pyStr epsg)]
  else [("srid", "EPSG:" ++ pyStr epsg)]

def baseTrace (w : World) (epsg : Nat) : List Effect :=
  [.setEnvVar "GRASS_COMPRESS_NULLS" "1",
   .setEnvVar "GRASS_COMPRESSOR" "LZ4",
   .setEnvVar "GRASS_MESSAGE_FORMAT" "plain",
   .message "Export input as GeoJSON...",
   .recordWorkspace w.env.locationName w.env.mapset w.env.gisdbase w.gisrc0,
   .writeFile w.tempfilePath (gisrcContent w),
   .runCmd "g.proj" [("flags", "g")],
   .verbose ("Creating temporary location with EPSG:" ++ pyStr epsg ++ "..."),
   .runCmd "g.proj" ([("flags", "c"), ("location", tmplocName w.pid), ("quiet", "True")] ++ epsgArgOf w epsg)]

def switchTrace (w : World) : List Effect :=
  [.setEnvVar "GISRC" w.tempfilePath, .runCmd "g.proj" [("flags", "g")]]

def gBase (w : World) : Globals :=
  { rm_file := [], TMPLOC := some (tmplocName w.pid), SRCGISRC := some w.tempfilePath,
    TGTGISRC := some w.gisrc0, GISDBASE := some w.env.gisdbase }

/-- The `v.proj` call of a run that parses `name@mapset` into `(n, m)`. -/
def vProjCmdOf (w : World) (n m : String) : Effect :=
  .runCmd "v.proj"
    [("location", w.env.locationName), ("mapset", m), ("input", n),
     ("output", n), ("quiet", "True")]

/-- Numeric value of a decimal digit character. -/
def chVal (c : Char) : Nat := c.toNat - 48

/-- Value of a big-endian decimal digit string. -/
def interpDigits (l : List Char) : Nat := l.foldl (fun a c => 10 * a + chVal c) 0

/-- Naive substring search: whether `pat` occurs contiguously inside `s`. -/
def containsSub (s pat : List Char) : Bool :=
  (List.range (s.length + 1)).any fun i => decide ((s.drop i).take pat.length = pat)

/-- Whether an effect mutates the process environment (`os.environ`). -/
def isEnvMutation : Effect → Bool
  | .setEnvVar _ _ => true
  | _ => false

/-- Whether an effect is the recording of the current workspace identity. -/
def isRecord : Effect → Bool
  | .recordWorkspace _ _ _ _ => true
  | _ => false

/-- `true` when some environment mutation happens strictly before the
workspace identity is recorded. -/
def mutationBeforeRecord (t : List Effect) : Bool :=
  (t.takeWhile (fun e => !isRecord e)).any isEnvMutation

/-- The status message `main` emits on success, by output mode. -/
def statusMsg (opts : Options) : String :=
  if opts.output = "-" then
    "GeoJSON of <" ++ opts.input ++ "> in EPSG:<" ++ pyStr opts.epsg ++ "> is:"
  else
    "GeoJSON of <" ++ opts.input ++ "> in EPSG:<" ++ pyStr opts.epsg ++
      "> is saved in <" ++ opts.output ++ ">"

/-- Concrete sample environment for witnesses and counterexamples. -/
def sampleEnv : GrassEnv :=
  { locationName := "nc_spm", mapset := "user1", gisdbase := "/grassdata" }

/-- A concrete world in which every external command succeeds. -/
def sampleWorld : World :=
  { env := sampleEnv, gisrc0 := "/tmp/rc0", pid := 7, tempfilePath := "/tmp/src_rc",
    tempname8 := "abc12345", srcProjHasEpsg := true, epsgResolvable := true,
    tmpProj := .epsgKey "4326", vProjOk := true, vProjErr := "vproj failed",
    vOutOgrOk := true, vOutOgrErr := "ogr failed", gjPrinted := "GJDOC" }

/-- Concrete file-mode options. -/
def sampleOptsFile : Options := { input := "roads", output := "out.geojson", epsg := 4326 }

/-- Concrete stdout-mode options. -/
def sampleOptsStdout : Options := { input := "roads", output := "-", epsg := 4326 }

/-- A world whose CRS registry cannot resolve the requested code. -/
def badEpsgWorld : World := { sampleWorld with epsgResolvable := false }

/-- Options requesting the unresolvable code of the reference test. -/
def badEpsgOpts : Options := { input := "roads", output := "out.geojson", epsg := 335888 }

/-- A world in which the temporary location reports a different EPSG code
than the requested one. -/
def mismatchWorld : World := { sampleWorld with tmpProj := .epsgKey "9999" }

/-- File-existence oracle that reports every path as existing. -/
def trueIsfile : String → Bool := fun _ => true

/-- Options whose input name contains two `@` characters. -/
def multiAtOpts : Options := { input := "x@y@z", output := "out.geojson", epsg := 4326 }

theorem mainRun_epsg_fail (w : World) (opts : Options) (hE : w.epsgResolvable = false) :
    mainRun w opts =
      (baseTrace w opts.epsg ++ [.toolkitError (epsgRejectionMsg opts.epsg)],
       gBase w, some (Err.cmdError "g.proj" (epsgRejectionMsg opts.epsg))) := by
  simp [mainRun, createTMPlocation, get_actual_location, hE, baseTrace, gBase,
    gisrcContent, epsgArgOf, pyStrOpt]
theorem mainRun_idx_fail (w : World) (opts : Options)
    (hE : w.epsgResolvable = true) (hN : newEpsgOf w = none) :
    mainRun w opts =
      (baseTrace w opts.epsg ++ switchTrace w,
       gBase w, some (Err.pyExc "IndexError: list index out of range")) := by
  simp [mainRun, createTMPlocation, get_actual_location, hE, hN, baseTrace, switchTrace,
    gBase, gisrcContent, epsgArgOf, pyStrOpt]

theorem mainRun_verify_fail (w : World) (opts : Options) (s : String)
    (hE : w.epsgResolvable = true) (hN : newEpsgOf w = some s)
    (hs : s ≠ pyStr opts.epsg) :
    mainRun w opts =
      (baseTrace w opts.epsg ++ switchTrace w ++
         [.fatalMsg "Creation of temporary location failed!"],
       gBase w, some (Err.fatal "Creation of temporary location failed!")) := by
  simp [mainRun, createTMPlocation, get_actual_location, hE, hN, hs, baseTrace, switchTrace,
    gBase, gisrcContent, epsgArgOf, pyStrOpt]

theorem mainRun_parse_fail (w : World) (opts : Options) (m : String)
    (hE : w.epsgResolvable = true) (hN : newEpsgOf w = some (pyStr opts.epsg))
    (hP : parseVect opts.input w.env.mapset = .error m) :
    mainRun w opts =
      (baseTrace w opts.epsg ++ switchTrace w,
       gBase w, some (Err.pyExc m)) := by
  simp [mainRun, createTMPlocation, get_actual_location, hE, hN, hP, baseTrace, switchTrace,
    gBase, gisrcContent, epsgArgOf, pyStrOpt]

theorem mainRun_vproj_fail (w : World) (opts : Options) (n m : String)
    (hE : w.epsgResolvable = true) (hN : newEpsgOf w = some (pyStr opts.epsg))
    (hP : parseVect opts.input w.env.mapset = .ok (n, m))
    (hV : w.vProjOk = false) :
    mainRun w opts =
      (baseTrace w opts.epsg ++ switchTrace w ++
         [vProjCmdOf w n m, .toolkitError w.vProjErr],
       gBase w, some (Err.cmdError "v.proj" w.vProjErr)) := by
  simp [mainRun, createTMPlocation, get_actual_location, hE, hN, hP, hV, baseTrace,
    switchTrace, gBase, gisrcContent, epsgArgOf, pyStrOpt, vProjCmdOf]

theorem mainRun_ogr_fail_file (w : World) (opts : Options) (n m : String)
    (hE : w.epsgResolvable = true) (hN : newEpsgOf w = some (pyStr opts.epsg))
    (hP : parseVect opts.input w.env.mapset = .ok (n, m))
    (hV : w.vProjOk = true) (hOut : ¬ opts.output = "-") (hO : w.vOutOgrOk = false) :
    mainRun w opts =
      (baseTrace w opts.epsg ++ switchTrace w ++
         [vProjCmdOf w n m,
          .runCmd "v.out.ogr" [("input", n), ("output", opts.output), ("format", "GeoJSON")],
          .toolkitError w.vOutOgrErr],
       gBase w, some (Err.cmdError "v.out.ogr" w.vOutOgrErr)) := by
  simp [mainRun, createTMPlocation, get_actual_location, hE, hN, hP, hV, hOut, hO,
    baseTrace, switchTrace, gBase, gisrcContent, epsgArgOf, pyStrOpt, vProjCmdOf]

theorem mainRun_ogr_fail_stdout (w : World) (opts : Options) (n m : String)
    (hE : w.epsgResolvable = true) (hN : newEpsgOf w = some (pyStr opts.epsg))
    (hP : parseVect opts.input w.env.mapset = .ok (n, m))
    (hV : w.vProjOk = true) (hOut : opts.output = "-") (hO : w.vOutOgrOk = false) :
    mainRun w opts =
      (baseTrace w opts.epsg ++ switchTrace w ++
         [vProjCmdOf w n m,
          .runCmd "v.out.ogr"
            [("input", n), ("output", w.tempname8 ++ ".geojson"), ("format", "GeoJSON")],
          .toolkitError w.vOutOgrErr],
       { gBase w with rm_file := [w.tempname8 ++ ".geojson"] },
       some (Err.cmdError "v.out.ogr" w.vOutOgrErr)) := by
  simp [mainRun, createTMPlocation, get_actual_location, hE, hN, hP, hV, hOut, hO,
    baseTrace, switchTrace, gBase, gisrcContent, epsgArgOf, pyStrOpt, vProjCmdOf]

theorem mainRun_success_file (w : World) (opts : Options) (n m : String)
    (hE : w.epsgResolvable = true) (hN : newEpsgOf w = some (pyStr opts.epsg))
    (hP : parseVect opts.input w.env.mapset = .ok (n, m))
    (hV : w.vProjOk = true) (hOut : ¬ opts.output = "-") (hO : w.vOutOgrOk = true) :
    mainRun w opts =
      (baseTrace w opts.epsg ++ switchTrace w ++
         [vProjCmdOf w n m,
          .runCmd "v.out.ogr" [("input", n), ("output", opts.output), ("format", "GeoJSON")],
          .message ("GeoJSON of <" ++ opts.input ++ "> in EPSG:<" ++ pyStr opts.epsg ++
            "> is saved in <" ++ opts.output ++ ">"),
          .setEnvVar "GISRC" w.gisrc0],
       gBase w, none) := by
  simp [mainRun, createTMPlocation, get_actual_location, hE, hN, hP, hV, hOut, hO,
    baseTrace, switchTrace, gBase, gisrcContent, epsgArgOf, pyStrOpt, vProjCmdOf]

theorem mainRun_success_stdout (w : World) (opts : Options) (n m : String)
    (hE : w.epsgResolvable = true) (hN : newEpsgOf w = some (pyStr opts.epsg))
    (hP : parseVect opts.input w.env.mapset = .ok (n, m))
    (hV : w.vProjOk = true) (hOut : opts.output = "-") (hO : w.vOutOgrOk = true) :
    mainRun w opts =
      (baseTrace w opts.epsg ++ switchTrace w ++
         [vProjCmdOf w n m,
          .runCmd "v.out.ogr"
            [("input", n), ("output", w.tempname8 ++ ".geojson"), ("format", "GeoJSON")],
          .message ("GeoJSON of <" ++ opts.input ++ "> in EPSG:<" ++ pyStr opts.epsg ++ "> is:"),
          .printStdout (w.gjPrinted ++ "\n"),
          .setEnvVar "GISRC" w.gisrc0],
       { gBase w with rm_file := [w.tempname8 ++ ".geojson"] }, none) := by
  simp [mainRun, createTMPlocation, get_actual_location, hE, hN, hP, hV, hOut, hO,
    baseTrace, switchTrace, gBase, gisrcContent, epsgArgOf, pyStrOpt, vProjCmdOf]

theorem splitChars_ne_nil (sep : Char) (l : List Char) : splitChars sep l ≠ [] := by
  induction l with
  | nil => simp [splitChars]
  | cons c cs ih =>
    simp only [splitChars]
    split
    · simp
    · split
      · simp
      · simp

theorem splitChars_length (sep : Char) (l : List Char) :
    (splitChars sep l).length = l.count sep + 1 := by
  induction l with
  | nil => simp [splitChars]
  | cons c cs ih =>
    simp only [splitChars]
    split
    · rename_i h
      simp [List.count_cons, h, ih]
    · rename_i h
      rcases hs : splitChars sep cs with _ | ⟨hd, tl⟩
      · exact absurd hs (splitChars_ne_nil sep cs)
      · have hih := ih
        rw [hs] at hih
        simp only [List.length_cons] at hih ⊢
        have hne : ¬ sep = c := fun hh => h hh.symm
        simp [List.count_cons, hne]
        omega

theorem splitChars_of_not_mem (sep : Char) (l : List Char) (h : sep ∉ l) :
    splitChars sep l = [l] := by
  induction l with
  | nil => rfl
  | cons c cs ih =>
    simp only [List.mem_cons, not_or] at h
    simp only [splitChars]
    rw [if_neg (fun hc => h.1 hc.symm), ih h.2]

theorem splitChars_of_count_le_one (sep : Char) (l : List Char)
    (h : l.count sep ≤ 1) (hm : sep ∈ l) :
    splitChars sep l = [l.takeWhile (· ≠ sep), (l.dropWhile (· ≠ sep)).tail] := by
  induction l with
  | nil => cases hm
  | cons c cs ih =>
    by_cases hc : c = sep
    · subst hc
      have hcs : cs.count c = 0 := by
        have := List.count_cons_self c cs
        omega
      have hnm : c ∉ cs := by
        rwa [← List.count_eq_zero]
      simp only [splitChars, if_pos rfl, splitChars_of_not_mem c cs hnm]
      simp [List.takeWhile, List.dropWhile]
    · have hm' : sep ∈ cs := by
        rcases List.mem_cons.mp hm with h1 | h2
        · exact absurd h1.symm hc
        · exact h2
      have hcount : cs.count sep ≤ 1 := by
        have := List.count_cons sep c cs
        omega
      simp only [splitChars]
      rw [if_neg hc, ih hcount hm']
      have hne : (fun x => decide (x ≠ sep)) c = true := by
        simp [hc]
      simp [List.takeWhile_cons, List.dropWhile_cons, hne, hc]

theorem pySplit_length (s : String) (sep : Char) :
    (pySplit s sep).length = s.data.count sep + 1 := by
  simp [pySplit, splitChars_length]

theorem chVal_digitChar (d : Nat) (h : d < 10) : chVal (digitChar d) = d := by
  interval_cases d <;> decide

theorem interpDigits_append_singleton (l : List Char) (c : Char) :
    interpDigits (l ++ [c]) = 10 * interpDigits l + chVal c := by
  simp [interpDigits, List.foldl_append]

theorem interpDigits_pyStrCore (f : Nat) :
    ∀ n : Nat, n < 10 ^ f → interpDigits (pyStrCore f n) = n := by
  induction f with
  | zero =>
    intro n hn
    interval_cases n
    simp [pyStrCore, interpDigits]
  | succ f ih =>
    intro n hn
    by_cases h10 : n < 10
    · simp [pyStrCore, h10, interpDigits, chVal_digitChar n h10]
    · have hdiv : n / 10 < 10 ^ f := by
        rw [Nat.div_lt_iff_lt_mul (by norm_num)]
        calc n < 10 ^ (f + 1) := hn
        _ = 10 ^ f * 10 := by ring
      simp only [pyStrCore, if_neg h10]
      rw [interpDigits_append_singleton, ih _ hdiv,
          chVal_digitChar _ (Nat.mod_lt n (by norm_num))]
      omega

theorem lt_ten_pow_succ (n : Nat) : n < 10 ^ (n + 1) := by
  calc n < 2 ^ n := Nat.lt_two_pow n
  _ ≤ 10 ^ n := Nat.pow_le_pow_left (by norm_num) n
  _ < 10 ^ (n + 1) := Nat.pow_lt_pow_succ (by norm_num)

theorem pyStrCore_inj {p q : Nat}
    (h : pyStrCore (p + 1) p = pyStrCore (q + 1) q) : p = q := by
  have hp := interpDigits_pyStrCore (p + 1) p (lt_ten_pow_succ p)
  have hq := interpDigits_pyStrCore (q + 1) q (lt_ten_pow_succ q)
  rw [← hp, ← hq, h]

theorem pyStr_inj {p q : Nat} (h : pyStr p = pyStr q) : p = q :=
  pyStrCore_inj (congrArg String.data h)

theorem take_append_self (l r : List Char) : (l ++ r).take l.length = l := by
  induction l with
  | nil => rfl
  | cons c cs ih => simp [List.take, ih]

theorem drop_append_self (l r : List Char) : (l ++ r).drop l.length = r := by
  induction l with
  | nil => rfl
  | cons c cs ih => simp [List.drop, ih]

theorem containsSub_iff (s pat : List Char) :
    containsSub s pat = true ↔ ∃ a b, s = a ++ pat ++ b := by
  constructor
  · intro h
    rcases List.any_eq_true.mp h with ⟨i, hi, hdec⟩
    have heq : (s.drop i).take pat.length = pat := of_decide_eq_true hdec
    refine ⟨s.take i, (s.drop i).drop pat.length, ?_⟩
    calc s = s.take i ++ s.drop i := (List.take_append_drop i s).symm
    _ = s.take i ++ ((s.drop i).take pat.length ++ (s.drop i).drop pat.length) := by
        rw [List.take_append_drop pat.length (s.drop i)]
    _ = s.take i ++ pat ++ (s.drop i).drop pat.length := by
        rw [heq, List.append_assoc]
  · rintro ⟨a, b, rfl⟩
    apply List.any_eq_true.mpr
    refine ⟨a.length, ?_, ?_⟩
    · apply List.mem_range.mpr
      simp
      omega
    · apply decide_eq_true
      rw [List.append_assoc, drop_append_self, take_append_self]

theorem containsSub_left (s p q : List Char)
    (h : containsSub s (p ++ q) = true) : containsSub s p = true := by
  rcases (containsSub_iff _ _).mp h with ⟨a, b, rfl⟩
  exact (containsSub_iff _ _).mpr ⟨a, q ++ b, by simp⟩

theorem containsSub_self (l : List Char) : containsSub l l = true :=
  (containsSub_iff _ _).mpr ⟨[], [], by simp⟩

theorem not_containsSub_extend (s pre pat : List Char)
    (hx : ∃ t, pre ++ t = pat) (h : containsSub s pre = false) :
    containsSub s pat = false := by
  rcases hx with ⟨t, rfl⟩
  by_contra hc
  have hc' : containsSub s (pre ++ t) = true := by
    revert hc
    cases containsSub s (pre ++ t) <;> simp
  have hfin := containsSub_left s pre t hc'
  rw [h] at hfin
  cases hfin

theorem program_eq (w : World) (opts : Options) (isfile : String → Bool) :
    program w opts isfile =
      ((mainRun w opts).1 ++ cleanup isfile (mainRun w opts).2.1,
       (mainRun w opts).2.2) := by
  rcases hm : mainRun w opts with ⟨t, g, e⟩
  simp [program, hm]

theorem diagOf_append (t1 t2 : List Effect) :
    diagOf (t1 ++ t2) = diagOf t1 ++ diagOf t2 := by
  simp [diagOf, List.filterMap_append]

theorem stdoutOf_append (t1 t2 : List Effect) :
    stdoutOf (t1 ++ t2) = stdoutOf t1 ++ stdoutOf t2 := by
  simp [stdoutOf, List.filterMap_append]

theorem diagOf_rmLoop (isfile : String → Bool) (l : List String) :
    diagOf (l.filterMap fun f =>
      if isfile f then some (Effect.removeFile f) else none) = [] := by
  induction l with
  | nil => rfl
  | cons a l ih =>
    by_cases h : isfile a <;> simp only [List.filterMap_cons, h, if_pos, if_neg] <;>
      simpa [diagOf] using ih

theorem stdoutOf_rmLoop (isfile : String → Bool) (l : List String) :
    stdoutOf (l.filterMap fun f =>
      if isfile f then some (Effect.removeFile f) else none) = [] := by
  induction l with
  | nil => rfl
  | cons a l ih =>
    by_cases h : isfile a <;> simp only [List.filterMap_cons, h, if_pos, if_neg] <;>
      simpa [stdoutOf] using ih

theorem diagOf_cleanup (isfile : String → Bool) (g : Globals) :
    diagOf (cleanup isfile g) = ["Cleaning up..."] := by
  rcases g with ⟨rm, tl, sg, tg, gd⟩
  simp only [cleanup]
  rw [diagOf_append, diagOf_append, diagOf_append, diagOf_append]
  rw [diagOf_rmLoop]
  cases tl <;> cases sg <;> cases tg <;> simp [diagOf]

theorem stdoutOf_cleanup (isfile : String → Bool) (g : Globals) :
    stdoutOf (cleanup isfile g) = [] := by
  rcases g with ⟨rm, tl, sg, tg, gd⟩
  simp only [cleanup]
  rw [stdoutOf_append, stdoutOf_append, stdoutOf_append, stdoutOf_append]
  rw [stdoutOf_rmLoop]
  cases tl <;> cases sg <;> cases tg <;> simp [stdoutOf]

theorem mainRun_success_inv (w : World) (opts : Options)
    (h : (mainRun w opts).2.2 = none) :
    w.epsgResolvable = true ∧ newEpsgOf w = some (pyStr opts.epsg) ∧
    w.vProjOk = true ∧ w.vOutOgrOk = true ∧
    ∃ n m, parseVect opts.input w.env.mapset = .ok (n, m) := by
  cases hE : w.epsgResolvable with
  | false => rw [mainRun_epsg_fail w opts hE] at h; cases h
  | true =>
    cases hN : newEpsgOf w with
    | none => rw [mainRun_idx_fail w opts hE hN] at h; cases h
    | some s =>
      by_cases hs : s = pyStr opts.epsg
      · subst hs
        cases hP : parseVect opts.input w.env.mapset with
        | error m => rw [mainRun_parse_fail w opts m hE hN hP] at h; cases h
        | ok nm =>
          obtain ⟨n, mm⟩ := nm
          cases hV : w.vProjOk with
          | false => rw [mainRun_vproj_fail w opts n mm hE hN hP hV] at h; cases h
          | true =>
            cases hO : w.vOutOgrOk with
            | false =>
              by_cases hOut : opts.output = "-"
              · rw [mainRun_ogr_fail_stdout w opts n mm hE hN hP hV hOut hO] at h; cases h
              · rw [mainRun_ogr_fail_file w opts n mm hE hN hP hV hOut hO] at h; cases h
            | true => exact ⟨rfl, rfl, rfl, rfl, n, mm, rfl⟩
      · rw [mainRun_verify_fail w opts s hE hN hs] at h; cases h

theorem mainRun_globals (w : World) (opts : Options) :
    (mainRun w opts).2.1 = gBase w ∨
    (opts.output = "-" ∧
      (mainRun w opts).2.1 = { gBase w with rm_file := [w.tempname8 ++ ".geojson"] }) := by
  cases hE : w.epsgResolvable with
  | false => rw [mainRun_epsg_fail w opts hE]; left; rfl
  | true =>
    cases hN : newEpsgOf w with
    | none => rw [mainRun_idx_fail w opts hE hN]; left; rfl
    | some s =>
      by_cases hs : s = pyStr opts.epsg
      · subst hs
        cases hP : parseVect opts.input w.env.mapset with
        | error m => rw [mainRun_parse_fail w opts m hE hN hP]; left; rfl
        | ok nm =>
          obtain ⟨n, mm⟩ := nm
          cases hV : w.vProjOk with
          | false => rw [mainRun_vproj_fail w opts n mm hE hN hP hV]; left; rfl
          | true =>
            by_cases hOut : opts.output = "-"
            · cases hO : w.vOutOgrOk with
              | false =>
                rw [mainRun_ogr_fail_stdout w opts n mm hE hN hP hV hOut hO]
                right; exact ⟨hOut, rfl⟩
              | true =>
                rw [mainRun_success_stdout w opts n mm hE hN hP hV hOut hO]
                right; exact ⟨hOut, rfl⟩
            · cases hO : w.vOutOgrOk with
              | false => rw [mainRun_ogr_fail_file w opts n mm hE hN hP hV hOut hO]; left; rfl
              | true => rw [mainRun_success_file w opts n mm hE hN hP hV hOut hO]; left; rfl
      · rw [mainRun_verify_fail w opts s hE hN hs]; left; rfl

theorem mainRun_trace_decomp (w : World) (opts : Options) :
    ∃ rest, (mainRun w opts).1 = baseTrace w opts.epsg ++ rest := by
  cases hE : w.epsgResolvable with
  | false => rw [mainRun_epsg_fail w opts hE]; exact ⟨_, rfl⟩
  | true =>
    cases hN : newEpsgOf w with
    | none => rw [mainRun_idx_fail w opts hE hN]; exact ⟨_, rfl⟩
    | some s =>
      by_cases hs : s = pyStr opts.epsg
      · subst hs
        cases hP : parseVect opts.input w.env.mapset with
        | error m => rw [mainRun_parse_fail w opts m hE hN hP]; exact ⟨_, rfl⟩
        | ok nm =>
          obtain ⟨n, mm⟩ := nm
          cases hV : w.vProjOk with
          | false =>
            rw [mainRun_vproj_fail w opts n mm hE hN hP hV]
            exact ⟨_, by rw [List.append_assoc]⟩
          | true =>
            by_cases hOut : opts.output = "-"
            · cases hO : w.vOutOgrOk with
              | false =>
                rw [mainRun_ogr_fail_stdout w opts n mm hE hN hP hV hOut hO]
                exact ⟨_, by rw [List.append_assoc]⟩
              | true =>
                rw [mainRun_success_stdout w opts n mm hE hN hP hV hOut hO]
                exact ⟨_, by rw [List.append_assoc]⟩
            · cases hO : w.vOutOgrOk with
              | false =>
                rw [mainRun_ogr_fail_file w opts n mm hE hN hP hV hOut hO]
                exact ⟨_, by rw [List.append_assoc]⟩
              | true =>
                rw [mainRun_success_file w opts n mm hE hN hP hV hOut hO]
                exact ⟨_, by rw [List.append_assoc]⟩
      · rw [mainRun_verify_fail w opts s hE hN hs]
        exact ⟨_, by rw [List.append_assoc]⟩

theorem stdoutOf_mainRun (w : World) (opts : Options) :
    stdoutOf (mainRun w opts).1 =
      if opts.output = "-" ∧ (mainRun w opts).2.2 = none
      then [w.gjPrinted ++ "\n"] else [] := by
  cases hE : w.epsgResolvable with
  | false =>
    rw [mainRun_epsg_fail w opts hE]
    simp [stdoutOf, baseTrace]
  | true =>
    cases hN : newEpsgOf w with
    | none =>
      rw [mainRun_idx_fail w opts hE hN]
      simp [stdoutOf, baseTrace, switchTrace]
    | some s =>
      by_cases hs : s = pyStr opts.epsg
      · subst hs
        cases hP : parseVect opts.input w.env.mapset with
        | error m =>
          rw [mainRun_parse_fail w opts m hE hN hP]
          simp [stdoutOf, baseTrace, switchTrace]
        | ok nm =>
          obtain ⟨n, mm⟩ := nm
          cases hV : w.vProjOk with
          | false =>
            rw [mainRun_vproj_fail w opts n mm hE hN hP hV]
            simp [stdoutOf, baseTrace, switchTrace, vProjCmdOf]
          | true =>
            by_cases hOut : opts.output = "-"
            · cases hO : w.vOutOgrOk with
              | false =>
                rw [mainRun_ogr_fail_stdout w opts n mm hE hN hP hV hOut hO]
                simp [stdoutOf, baseTrace, switchTrace, vProjCmdOf]
              | true =>
                rw [mainRun_success_stdout w opts n mm hE hN hP hV hOut hO]
                simp [stdoutOf, baseTrace, switchTrace, vProjCmdOf, hOut]
            · cases hO : w.vOutOgrOk with
              | false =>
                rw [mainRun_ogr_fail_file w opts n mm hE hN hP hV hOut hO]
                simp [stdoutOf, baseTrace, switchTrace, vProjCmdOf]
              | true =>
                rw [mainRun_success_file w opts n mm hE hN hP hV hOut hO]
                simp [stdoutOf, baseTrace, switchTrace, vProjCmdOf, hOut]
      · rw [mainRun_verify_fail w opts s hE hN hs]
        simp [stdoutOf, baseTrace, switchTrace]

/-- C1: for every invocation, successful or failed, the cleanup routine
registered once at startup runs at process exit (its effects are appended
to the trace of every run) and performs all four actions: it removes every
generated temporary output file that exists, restores the pre-invocation
active-workspace pointer `GISRC`, removes the temporary workspace storage
directory, and removes the temporary workspace environment-descriptor
file. -/
theorem claim1_cleanup_runs_and_covers_all_state
    (w : World) (opts : Options) (isfile : String → Bool) :
    (program w opts isfile).1 = (mainRun w opts).1 ++ cleanup isfile (mainRun w opts).2.1 ∧
    (∀ f ∈ (mainRun w opts).2.1.rm_file, isfile f = true →
      Effect.removeFile f ∈ cleanup isfile (mainRun w opts).2.1) ∧
    Effect.setEnvVar "GISRC" w.gisrc0 ∈ cleanup isfile (mainRun w opts).2.1 ∧
    Effect.rmTree (pathJoin w.env.gisdbase (tmplocName w.pid)) ∈
      cleanup isfile (mainRun w opts).2.1 ∧
    Effect.removeFile w.tempfilePath ∈ cleanup isfile (mainRun w opts).2.1 := by
  have hprog : (program w opts isfile).1 =
      (mainRun w opts).1 ++ cleanup isfile (mainRun w opts).2.1 := by
    rcases hm : mainRun w opts with ⟨t, g, e⟩
    simp [program, hm]
  refine ⟨hprog, ?_⟩
  rcases mainRun_globals w opts with hg | ⟨hOut, hg⟩ <;> rw [hg]
  · refine ⟨?_, ?_, ?_, ?_⟩
    · intro f hf; simp [gBase] at hf
    · simp [cleanup, gBase, pathJoin, pyStrOpt]
    · simp [cleanup, gBase, pathJoin, pyStrOpt]
    · simp [cleanup, gBase, pathJoin, pyStrOpt]
  · refine ⟨?_, ?_, ?_, ?_⟩
    · intro f hf hfile
      simp [gBase] at hf
      subst hf
      simp [cleanup, gBase, pathJoin, pyStrOpt, hfile]
    · simp [cleanup, gBase, pathJoin, pyStrOpt]
    · simp [cleanup, gBase, pathJoin, pyStrOpt]
    · simp [cleanup, gBase, pathJoin, pyStrOpt]

/-- Witness for C1 at concrete inputs: the three unconditional cleanup
actions in a file-mode run, and the removal of the generated temporary
output file in a stdout-mode run. -/
theorem claim1_witness :
    Effect.setEnvVar "GISRC" "/tmp/rc0" ∈
      cleanup trueIsfile (mainRun sampleWorld sampleOptsFile).2.1 ∧
    Effect.rmTree "/grassdata/temp_import_location_7" ∈
      cleanup trueIsfile (mainRun sampleWorld sampleOptsFile).2.1 ∧
    Effect.removeFile "/tmp/src_rc" ∈
      cleanup trueIsfile (mainRun sampleWorld sampleOptsFile).2.1 ∧
    Effect.removeFile "abc12345.geojson" ∈
      cleanup trueIsfile (mainRun sampleWorld sampleOptsStdout).2.1 := by
  obtain ⟨-, -, h2, h3, h4⟩ :=
    claim1_cleanup_runs_and_covers_all_state sampleWorld sampleOptsFile trueIsfile
  obtain ⟨-, hrm, -, -, -⟩ :=
    claim1_cleanup_runs_and_covers_all_state sampleWorld sampleOptsStdout trueIsfile
  have hp : pathJoin sampleWorld.env.gisdbase (tmplocName sampleWorld.pid) =
      "/grassdata/temp_import_location_7" := by decide
  refine ⟨h2, hp ▸ h3, h4, hrm "abc12345.geojson" (by decide) rfl⟩

/-- C2: for every invocation whose EPSG code the CRS registry cannot
resolve, the run aborts with the uncaught command failure of `g.proj`
before any workspace switch or export attempt: the process exits non-zero,
the diagnostic stream carries the registry rejection message, that message
contains the offending EPSG code as a substring, no `GISRC` assignment at
all happens during `main`, and neither `v.proj` nor `v.out.ogr` is ever
invoked. -/
theorem claim2_unresolvable_epsg_fatal_before_switch
    (w : World) (opts : Options) (isfile : String → Bool)
    (hE : w.epsgResolvable = false) :
    (program w opts isfile).2 =
      some (Err.cmdError "g.proj" (epsgRejectionMsg opts.epsg)) ∧
    exitCode (program w opts isfile).2 = 1 ∧
    epsgRejectionMsg opts.epsg ∈ diagOf (program w opts isfile).1 ∧
    containsSub (epsgRejectionMsg opts.epsg).data (pyStr opts.epsg).data = true ∧
    (∀ v, Effect.setEnvVar "GISRC" v ∉ (mainRun w opts).1) ∧
    (∀ args, Effect.runCmd "v.proj" args ∉ (program w opts isfile).1) ∧
    (∀ args, Effect.runCmd "v.out.ogr" args ∉ (program w opts isfile).1) := by
  rw [program_eq, mainRun_epsg_fail w opts hE]
  refine ⟨rfl, rfl, ?_, ?_, ?_, ?_, ?_⟩
  · rw [diagOf_append, diagOf_cleanup]
    simp [diagOf, baseTrace]
  · exact (containsSub_iff _ _).mpr
      ⟨"EPSG PCS/GCS code ".data, " not found in EPSG support files.".data,
       by simp [epsgRejectionMsg]⟩
  · intro v
    simp [baseTrace, gBase]
  · intro args
    simp [baseTrace, gBase, cleanup, pathJoin, pyStrOpt]
  · intro args
    simp [baseTrace, gBase, cleanup, pathJoin, pyStrOpt]

/-- Witness for C2 at the world that rejects EPSG 335888. -/
theorem claim2_witness :
    (program badEpsgWorld badEpsgOpts trueIsfile).2 =
      some (Err.cmdError "g.proj" (epsgRejectionMsg 335888)) ∧
    epsgRejectionMsg 335888 ∈ diagOf (program badEpsgWorld badEpsgOpts trueIsfile).1 := by
  obtain ⟨h1, -, h3, -⟩ :=
    claim2_unresolvable_epsg_fatal_before_switch badEpsgWorld badEpsgOpts trueIsfile rfl
  exact ⟨h1, h3⟩

/-- C9: after creating the temporary location, the script switches `GISRC`
to it, re-reads the projection via `g.proj -g`, and aborts through
`grass.fatal` with message `Creation of temporary location failed!` when
the reported EPSG code differs from the requested one; the switch effect
occurs in the trace strictly before the fatal message. -/
theorem claim9_verification_failure_after_switch
    (w : World) (opts : Options) (s : String)
    (hE : w.epsgResolvable = true) (hN : newEpsgOf w = some s)
    (hs : s ≠ pyStr opts.epsg) :
    (mainRun w opts).2.2 = some (Err.fatal "Creation of temporary location failed!") ∧
    (mainRun w opts).1 =
      baseTrace w opts.epsg ++
        [Effect.setEnvVar "GISRC" w.tempfilePath,
         Effect.runCmd "g.proj" [("flags", "g")],
         Effect.fatalMsg "Creation of temporary location failed!"] ∧
    "Creation of temporary location failed!" ∈ diagOf (mainRun w opts).1 ∧
    (∃ l1 l2 l3, (mainRun w opts).1 =
      l1 ++ [Effect.setEnvVar "GISRC" w.tempfilePath] ++ l2 ++
        [Effect.fatalMsg "Creation of temporary location failed!"] ++ l3) := by
  rw [mainRun_verify_fail w opts s hE hN hs]
  refine ⟨rfl, ?_, ?_, ?_⟩
  · simp [switchTrace]
  · simp [diagOf_append, diagOf, switchTrace]
  · exact ⟨baseTrace w opts.epsg, [Effect.runCmd "g.proj" [("flags", "g")]], [],
      by simp [switchTrace]⟩

/-- Witness for C9: the temporary location reports EPSG 9999 instead of the
requested 4326. -/
theorem claim9_witness :
    (mainRun mismatchWorld sampleOptsFile).2.2 =
      some (Err.fatal "Creation of temporary location failed!") ∧
    "Creation of temporary location failed!" ∈
      diagOf (mainRun mismatchWorld sampleOptsFile).1 := by
  obtain ⟨h1, -, h3, -⟩ :=
    claim9_verification_failure_after_switch mismatchWorld sampleOptsFile "9999"
      rfl rfl (by decide)
  exact ⟨h1, h3⟩

theorem diagOf_mainRun_success (w : World) (opts : Options) (n m : String)
    (hE : w.epsgResolvable = true) (hN : newEpsgOf w = some (pyStr opts.epsg))
    (hP : parseVect opts.input w.env.mapset = .ok (n, m))
    (hV : w.vProjOk = true) (hO : w.vOutOgrOk = true) :
    diagOf (mainRun w opts).1 = ["Export input as GeoJSON...", statusMsg opts] := by
  by_cases hOut : opts.output = "-"
  · rw [mainRun_success_stdout w opts n m hE hN hP hV hOut hO]
    simp [diagOf, baseTrace, switchTrace, vProjCmdOf, statusMsg, hOut]
  · rw [mainRun_success_file w opts n m hE hN hP hV hOut hO]
    simp [diagOf, baseTrace, switchTrace, vProjCmdOf, statusMsg, hOut]

/-- C3: on every successful invocation, exactly one message of the
diagnostic stream contains the status text: in file mode
`GeoJSON of <INPUT> in EPSG:<EPSG> is saved in <OUTPUT>`, in stdout mode
`GeoJSON of <INPUT> in EPSG:<EPSG> is:`, with the option values
substituted (the containment is counted over the whole run, cleanup
included). -/
theorem claim3_exactly_one_status_message
    (w : World) (opts : Options) (isfile : String → Bool)
    (hsucc : (mainRun w opts).2.2 = none) :
    (diagOf (program w opts isfile).1).countP
      (fun s => containsSub s.data (statusMsg opts).data) = 1 := by
  obtain ⟨hE, hN, hV, hO, n, m, hP⟩ := mainRun_success_inv w opts hsucc
  rw [program_eq, diagOf_append, diagOf_mainRun_success w opts n m hE hN hP hV hO,
    diagOf_cleanup]
  have hpre : ∃ t, "GeoJSON of <".data ++ t = (statusMsg opts).data := by
    by_cases hOut : opts.output = "-"
    · exact ⟨(opts.input ++ "> in EPSG:<" ++ pyStr opts.epsg ++ "> is:").data,
        by simp [statusMsg, hOut, String.data_append, List.append_assoc]⟩
    · exact ⟨(opts.input ++ "> in EPSG:<" ++ pyStr opts.epsg ++ "> is saved in <" ++
          opts.output ++ ">").data,
        by simp [statusMsg, hOut, String.data_append, List.append_assoc]⟩
  have hno1 : containsSub "Export input as GeoJSON...".data (statusMsg opts).data = false :=
    not_containsSub_extend _ _ _ hpre (by decide)
  have hno3 : containsSub "Cleaning up...".data (statusMsg opts).data = false :=
    not_containsSub_extend _ _ _ hpre (by decide)
  have hyes : containsSub (statusMsg opts).data (statusMsg opts).data = true :=
    containsSub_self _
  simp [List.countP_cons, List.countP_append, hno1, hno3, hyes]

/-- Witness for C3: a successful concrete file-mode run carries the status
message exactly once. -/
theorem claim3_witness :
    (diagOf (program sampleWorld sampleOptsFile trueIsfile).1).countP
      (fun s => containsSub s.data (statusMsg sampleOptsFile).data) = 1 :=
  claim3_exactly_one_status_message sampleWorld sampleOptsFile trueIsfile (by decide)

/-- C4: standard output carries only the parsed GeoJSON document in its
default print form with one trailing newline, and only in stdout mode on a
successful run; file-mode runs, and failed stdout-mode runs, write nothing
to standard output. -/
theorem claim4_stdout_channel (w : World) (opts : Options) (isfile : String → Bool) :
    (opts.output ≠ "-" → stdoutOf (program w opts isfile).1 = []) ∧
    (opts.output = "-" → (program w opts isfile).2 = none →
      stdoutOf (program w opts isfile).1 = [w.gjPrinted ++ "\n"]) ∧
    (opts.output = "-" → (program w opts isfile).2 ≠ none →
      stdoutOf (program w opts isfile).1 = []) := by
  rw [program_eq]
  simp only [stdoutOf_append, stdoutOf_cleanup, List.append_nil, stdoutOf_mainRun]
  refine ⟨?_, ?_, ?_⟩
  · intro hOut
    simp [hOut]
  · intro hOut hsucc
    simp [hOut, hsucc]
  · intro hOut hne
    simp [hOut, hne]

/-- Witness for C4: the concrete stdout-mode run prints exactly the parsed
document followed by a newline, and the concrete file-mode run prints
nothing. -/
theorem claim4_witness :
    stdoutOf (program sampleWorld sampleOptsStdout trueIsfile).1 =
      [sampleWorld.gjPrinted ++ "\n"] ∧
    stdoutOf (program sampleWorld sampleOptsFile trueIsfile).1 = [] :=
  ⟨(claim4_stdout_channel sampleWorld sampleOptsStdout trueIsfile).2.1 rfl (by decide),
   (claim4_stdout_channel sampleWorld sampleOptsFile trueIsfile).1 (by decide)⟩

/-- Counterexample to C5 as stated: the script mutates global environment
state (the three tuning variables written by `os.environ.update`) before
`get_actual_location` records the current workspace identity, as the
concrete run shows. -/
theorem claim5_counterexample :
    mutationBeforeRecord (program sampleWorld sampleOptsFile trueIsfile).1 = true := by
  decide

/-- C5 amended: the workspace identity is recorded before any
workspace-related global environment mutation: the only effects preceding
the record are the three fixed tuning-variable writes and the start
message, the record event itself carries the pre-invocation identity, and
in particular the `GISRC` pointer is never written before the record. -/
theorem claim5_amended_record_before_workspace_mutation
    (w : World) (opts : Options) (isfile : String → Bool) :
    ((program w opts isfile).1.takeWhile (fun e => !isRecord e) =
      [Effect.setEnvVar "GRASS_COMPRESS_NULLS" "1",
       Effect.setEnvVar "GRASS_COMPRESSOR" "LZ4",
       Effect.setEnvVar "GRASS_MESSAGE_FORMAT" "plain",
       Effect.message "Export input as GeoJSON..."]) ∧
    (∃ rest, (program w opts isfile).1 =
      [Effect.setEnvVar "GRASS_COMPRESS_NULLS" "1",
       Effect.setEnvVar "GRASS_COMPRESSOR" "LZ4",
       Effect.setEnvVar "GRASS_MESSAGE_FORMAT" "plain",
       Effect.message "Export input as GeoJSON...",
       Effect.recordWorkspace w.env.locationName w.env.mapset w.env.gisdbase w.gisrc0]
        ++ rest) ∧
    (∀ k v, Effect.setEnvVar k v ∈
        (program w opts isfile).1.takeWhile (fun e => !isRecord e) → k ≠ "GISRC") := by
  obtain ⟨rest, hdec⟩ := mainRun_trace_decomp w opts
  have hprog : (program w opts isfile).1 =
      baseTrace w opts.epsg ++ (rest ++ cleanup isfile (mainRun w opts).2.1) := by
    rw [program_eq]
    dsimp only
    rw [hdec, List.append_assoc]
  have htake : (program w opts isfile).1.takeWhile (fun e => !isRecord e) =
      [Effect.setEnvVar "GRASS_COMPRESS_NULLS" "1",
       Effect.setEnvVar "GRASS_COMPRESSOR" "LZ4",
       Effect.setEnvVar "GRASS_MESSAGE_FORMAT" "plain",
       Effect.message "Export input as GeoJSON..."] := by
    rw [hprog]
    simp [baseTrace, List.takeWhile_cons, isRecord]
  refine ⟨htake, ⟨?_, ?_⟩, ?_⟩
  · exact [Effect.writeFile w.tempfilePath (gisrcContent w),
      Effect.runCmd "g.proj" [("flags", "g")],
      Effect.verbose ("Creating temporary location with EPSG:" ++ pyStr opts.epsg ++ "..."),
      Effect.runCmd "g.proj"
        ([("flags", "c"), ("location", tmplocName w.pid), ("quiet", "True")] ++
          epsgArgOf w opts.epsg)] ++ (rest ++ cleanup isfile (mainRun w opts).2.1)
  · rw [hprog]
    simp [baseTrace]
  · intro k v hmem
    rw [htake] at hmem
    simp only [List.mem_cons, List.not_mem_nil, or_false] at hmem
    rcases hmem with h | h | h | h <;> first
      | (injection h with hk hv; subst hk; decide)
      | (cases h)

/-- Witness for C5 amended at a concrete stdout-mode run. -/
theorem claim5_witness :
    ((program sampleWorld sampleOptsStdout trueIsfile).1.takeWhile
        (fun e => !isRecord e) =
      [Effect.setEnvVar "GRASS_COMPRESS_NULLS" "1",
       Effect.setEnvVar "GRASS_COMPRESSOR" "LZ4",
       Effect.setEnvVar "GRASS_MESSAGE_FORMAT" "plain",
       Effect.message "Export input as GeoJSON..."]) ∧
    "GRASS_COMPRESSOR" ≠ "GISRC" := by
  obtain ⟨h1, -, h3⟩ :=
    claim5_amended_record_before_workspace_mutation sampleWorld sampleOptsStdout trueIsfile
  exact ⟨h1, h3 "GRASS_COMPRESSOR" "LZ4" (by decide)⟩

theorem parseVect_of_count_le_one (vect tgt : String)
    (h : vect.data.count '@' ≤ 1) :
    parseVect vect tgt = .ok (if '@' ∈ vect.data
      then (⟨vect.data.takeWhile (· ≠ '@')⟩, ⟨(vect.data.dropWhile (· ≠ '@')).tail⟩)
      else (vect, tgt)) := by
  by_cases hm : '@' ∈ vect.data
  · have hsplit := splitChars_of_count_le_one '@' vect.data h hm
    simp [parseVect, hm, pySplit, hsplit]
  · simp [parseVect, hm]

theorem parseVect_error_of_two_le_count (vect tgt : String)
    (h : 2 ≤ vect.data.count '@') :
    parseVect vect tgt = .error "ValueError: too many values to unpack (expected 2)" := by
  have hm : '@' ∈ vect.data := by
    by_contra hnm
    have h0 : vect.data.count '@' = 0 := List.count_eq_zero.mpr hnm
    omega
  have hlen : (pySplit vect '@').length = vect.data.count '@' + 1 := pySplit_length vect '@'
  simp only [parseVect, if_pos hm]
  rcases hl : pySplit vect '@' with _ | ⟨a, _ | ⟨b, _ | ⟨c, rest⟩⟩⟩
  · rfl
  · rfl
  · rw [hl] at hlen
    simp at hlen
    omega
  · rfl

/-- Counterexample to C6 as stated: for an input with two `@` characters
the layer reference is not derived at all; the two-element unpacking of the
three-piece split raises a `ValueError` instead of producing a
`(name, mapset)` pair. -/
theorem claim6_counterexample :
    parseVect "a@b@c" "PERMANENT" =
      .error "ValueError: too many values to unpack (expected 2)" := rfl

/-- C6 amended: for every input string containing at most one `@`, the
layer reference is derived by splitting on `@` (the part before `@` is the
layer name and the part after is the owning mapset, and an input without
`@` keeps the whole string as name with the current mapset as owner), and
the reprojection call in the scratch workspace uses that same layer name
for both its input and its output. -/
theorem claim6_amended_split_for_at_most_one_at :
    (∀ vect tgt : String, vect.data.count '@' ≤ 1 →
      parseVect vect tgt = .ok (if '@' ∈ vect.data
        then (⟨vect.data.takeWhile (· ≠ '@')⟩, ⟨(vect.data.dropWhile (· ≠ '@')).tail⟩)
        else (vect, tgt))) ∧
    (∀ (w : World) (opts : Options) (n m : String),
      parseVect opts.input w.env.mapset = .ok (n, m) →
      w.epsgResolvable = true → newEpsgOf w = some (pyStr opts.epsg) →
      w.vProjOk = true →
      vProjCmdOf w n m ∈ (mainRun w opts).1) := by
  refine ⟨parseVect_of_count_le_one, ?_⟩
  intro w opts n m hP hE hN hV
  by_cases hOut : opts.output = "-"
  · cases hO : w.vOutOgrOk with
    | false =>
      rw [mainRun_ogr_fail_stdout w opts n m hE hN hP hV hOut hO]
      simp
    | true =>
      rw [mainRun_success_stdout w opts n m hE hN hP hV hOut hO]
      simp
  · cases hO : w.vOutOgrOk with
    | false =>
      rw [mainRun_ogr_fail_file w opts n m hE hN hP hV hOut hO]
      simp
    | true =>
      rw [mainRun_success_file w opts n m hE hN hP hV hOut hO]
      simp

/-- Witness for C6 amended at concrete inputs. -/
theorem claim6_witness :
    parseVect "roads@PERMANENT" "user1" = .ok ("roads", "PERMANENT") ∧
    vProjCmdOf sampleWorld "roads" "user1" ∈ (mainRun sampleWorld sampleOptsFile).1 := by
  obtain ⟨h1, h2⟩ := claim6_amended_split_for_at_most_one_at
  exact ⟨(h1 "roads@PERMANENT" "user1" (by decide)).trans rfl,
    h2 sampleWorld sampleOptsFile "roads" "user1" rfl rfl rfl rfl⟩

/-- C7: every run names its temporary workspace
`temp_import_location_<pid>`, and the name determines the process id, so
two invocations under distinct process ids always get distinct temporary
workspace names. -/
theorem claim7_pid_distinct_tmp_names :
    (∀ (w : World) (opts : Options),
      (mainRun w opts).2.1.TMPLOC = some (tmplocName w.pid)) ∧
    (∀ p q : Nat, p ≠ q → tmplocName p ≠ tmplocName q) := by
  constructor
  · intro w opts
    rcases mainRun_globals w opts with hg | ⟨-, hg⟩ <;> rw [hg] <;> rfl
  · intro p q hne heq
    apply hne
    have hdata : "temp_import_location_".data ++ (pyStr p).data =
        "temp_import_location_".data ++ (pyStr q).data := by
      have := congrArg String.data heq
      simpa [tmplocName, String.data_append] using this
    have hps : (pyStr p).data = (pyStr q).data := List.append_cancel_left hdata
    exact pyStr_inj (by
      show pyStr p = pyStr q
      cases hpp : pyStr p with
      | mk dp =>
        cases hqq : pyStr q with
        | mk dq =>
          rw [hpp, hqq] at hps
          simp at hps
          simp [hps])

/-- Witness for C7 at concrete inputs. -/
theorem claim7_witness :
    (mainRun sampleWorld sampleOptsFile).2.1.TMPLOC = some (tmplocName 7) ∧
    tmplocName 1 ≠ tmplocName 2 := by
  obtain ⟨h1, h2⟩ := claim7_pid_distinct_tmp_names
  exact ⟨h1 sampleWorld sampleOptsFile, h2 1 2 (by decide)⟩

/-- C8: a private temporary output path enters the removal list only in
stdout mode (and it is the generated `<tempname>.geojson` path); in file
mode the removal list stays empty, cleanup removals only ever target the
removal list or the descriptor file, and the user-specified destination is
never deleted. -/
theorem claim8_rm_list_only_generated (w : World) (opts : Options) (isfile : String → Bool) :
    (opts.output ≠ "-" → (mainRun w opts).2.1.rm_file = []) ∧
    (∀ f ∈ (mainRun w opts).2.1.rm_file,
      opts.output = "-" ∧ f = w.tempname8 ++ ".geojson") ∧
    (∀ p, Effect.removeFile p ∈ cleanup isfile (mainRun w opts).2.1 →
      p ∈ (mainRun w opts).2.1.rm_file ∨ p = w.tempfilePath) ∧
    (opts.output ≠ "-" → opts.output ≠ w.tempfilePath →
      Effect.removeFile opts.output ∉ cleanup isfile (mainRun w opts).2.1) := by
  rcases mainRun_globals w opts with hg | ⟨hOut0, hg⟩ <;> rw [hg]
  · refine ⟨fun _ => rfl, ?_, ?_, ?_⟩
    · intro f hf
      simp [gBase] at hf
    · intro p hp
      simp [cleanup, gBase, pathJoin, pyStrOpt] at hp
      right; exact hp
    · intro hOut hneq hp
      simp [cleanup, gBase, pathJoin, pyStrOpt] at hp
      exact hneq hp
  · refine ⟨fun hc => absurd hOut0 hc, ?_, ?_, ?_⟩
    · intro f hf
      simp [gBase] at hf
      exact ⟨hOut0, hf⟩
    · intro p hp
      by_cases hif : isfile (w.tempname8 ++ ".geojson")
      · simp [cleanup, gBase, pathJoin, pyStrOpt, hif] at hp
        rcases hp with h | h
        · left; simp [gBase, h]
        · right; exact h
      · simp [cleanup, gBase, pathJoin, pyStrOpt, hif] at hp
        right; exact hp
    · intro hOut hneq hp
      exact absurd hOut0 hOut

/-- Witness for C8 at a concrete file-mode run. -/
theorem claim8_witness :
    (mainRun sampleWorld sampleOptsFile).2.1.rm_file = [] ∧
    Effect.removeFile "out.geojson" ∉
      cleanup trueIsfile (mainRun sampleWorld sampleOptsFile).2.1 := by
  obtain ⟨h1, -, -, h4⟩ :=
    claim8_rm_list_only_generated sampleWorld sampleOptsFile trueIsfile
  exact ⟨h1 (by decide), h4 (by decide) (by decide)⟩

/-- C10: the `name@mapset` split is total exactly for inputs with at most
one `@`; for two or more `@` characters the two-element unpacking raises a
`ValueError` (an unhandled Python exception, not a `grass.fatal`
human-readable error), and a run reaching the split with such an input
terminates with that exception. -/
theorem claim10_multi_at_raises_exception :
    (∀ vect tgt : String,
      (∃ nm, parseVect vect tgt = .ok nm) ↔ vect.data.count '@' ≤ 1) ∧
    (∀ vect tgt : String, 2 ≤ vect.data.count '@' →
      parseVect vect tgt = .error "ValueError: too many values to unpack (expected 2)") ∧
    (∀ (w : World) (opts : Options),
      w.epsgResolvable = true → newEpsgOf w = some (pyStr opts.epsg) →
      2 ≤ opts.input.data.count '@' →
      (mainRun w opts).2.2 =
        some (Err.pyExc "ValueError: too many values to unpack (expected 2)") ∧
      ∀ msg, (mainRun w opts).2.2 ≠ some (Err.fatal msg)) := by
  have herr := parseVect_error_of_two_le_count
  refine ⟨?_, herr, ?_⟩
  · intro vect tgt
    constructor
    · rintro ⟨nm, hnm⟩
      by_contra hgt
      push_neg at hgt
      rw [herr vect tgt hgt] at hnm
      cases hnm
    · intro hle
      exact ⟨_, parseVect_of_count_le_one vect tgt hle⟩
  · intro w opts hE hN hcount
    have hP := herr opts.input w.env.mapset hcount
    rw [mainRun_parse_fail w opts _ hE hN hP]
    exact ⟨rfl, fun msg h => by cases h⟩

/-- Witness for C10 at concrete inputs. -/
theorem claim10_witness :
    parseVect "x@y@z" "user1" =
      .error "ValueError: too many values to unpack (expected 2)" ∧
    (mainRun sampleWorld multiAtOpts).2.2 =
      some (Err.pyExc "ValueError: too many values to unpack (expected 2)") := by
  obtain ⟨-, h2, h3⟩ := claim10_multi_at_raises_exception
  exact ⟨h2 "x@y@z" "user1" (by decide),
    (h3 sampleWorld multiAtOpts rfl rfl (by decide)).1⟩

end VOutGeojson
